import Mathlib

/-!
Verification of the result-retrieval and query-lifecycle core of speee/go-athena.

The Go sources conn.go and rows_gzip.go are embedded shallowly: Go strings
and byte slices become `List Nat` (byte values), fallible operations become
`Except`, the AWS/S3 collaborators become function parameters, and the
regular expressions of the query classifier become executable matchers with
the same semantics on byte strings.
-/

namespace GoAthena

/-! ### Query classifier (conn.go, lines 20-63)

The three patterns are
  ddlQueryPattern    = (?i)^(ALTER|CREATE|DESCRIBE|DROP|MSCK|SHOW)
  selectQueryPattern = (?i)^SELECT
  ctasQueryPattern   = (?i)^CREATE.+AS\s+SELECT
MatchString with a ^-anchored pattern is a prefix test.  (?i) folds case; the
patterns are ASCII, so folding is ASCII upper-to-lower here.  In the CTAS
pattern, . matches any byte except newline, and \s is one of tab, newline,
form feed, carriage return, space. -/

/-- ASCII lower-casing of one byte, the case folding used by the (?i) patterns. -/
def toLowerByte (c : Nat) : Nat :=
  if 65 ≤ c ∧ c ≤ 90 then c + 32 else c

/-- Case-insensitive prefix test: pattern bytes against the head of the string. -/
def ciStartsWith : List Nat → List Nat → Bool
  | [], _ => true
  | _ :: _, [] => false
  | p :: ps, c :: cs => (toLowerByte p == toLowerByte c) && ciStartsWith ps cs

/-- Byte string of the pattern word ALTER. -/
def alterPat : List Nat := [65, 76, 84, 69, 82]

/-- Byte string of the pattern word CREATE. -/
def createPat : List Nat := [67, 82, 69, 65, 84, 69]

/-- Byte string of the pattern word DESCRIBE. -/
def describePat : List Nat := [68, 69, 83, 67, 82, 73, 66, 69]

/-- Byte string of the pattern word DROP. -/
def dropPat : List Nat := [68, 82, 79, 80]

/-- Byte string of the pattern word MSCK. -/
def msckPat : List Nat := [77, 83, 67, 75]

/-- Byte string of the pattern word SHOW. -/
def showPat : List Nat := [83, 72, 79, 87]

/-- Byte string of the pattern word SELECT. -/
def selectPat : List Nat := [83, 69, 76, 69, 67, 84]

/-- ddlQueryPattern.MatchString: the query starts (case-insensitively) with one
of ALTER, CREATE, DESCRIBE, DROP, MSCK, SHOW. -/
def ddlMatchString (q : List Nat) : Bool :=
  ciStartsWith alterPat q || ciStartsWith createPat q || ciStartsWith describePat q ||
    ciStartsWith dropPat q || ciStartsWith msckPat q || ciStartsWith showPat q

/-- selectQueryPattern.MatchString: the query starts (case-insensitively) with SELECT. -/
def selectMatchString (q : List Nat) : Bool :=
  ciStartsWith selectPat q

/-- Whitespace class of the regexp escape backslash-s: tab, newline, form feed,
carriage return, space. -/
def wsByte (c : Nat) : Bool :=
  c == 9 || c == 10 || c == 12 || c == 13 || c == 32

/-- Match of the regexp fragment AS backslash-s + SELECT at the head of the
string: a case-insensitive AS, at least one whitespace byte, then a
case-insensitive SELECT.  Since the first byte of SELECT is never whitespace,
the one-or-more whitespace repetition matches exactly when the maximal
whitespace run after AS is nonempty and SELECT follows it. -/
def asSelectAt : List Nat → Bool
  | a :: s :: rest =>
    (toLowerByte a == 97) && (toLowerByte s == 115) &&
      (decide (0 < (rest.takeWhile wsByte).length) &&
        ciStartsWith selectPat (rest.drop (rest.takeWhile wsByte).length))
  | _ => false

/-- Search for the regexp fragment .+AS backslash-s + SELECT: some position at
distance at least one, all bytes before it different from newline (the dot
does not match newline), with AS, whitespace, SELECT matching there. -/
def ctasTail : List Nat → Bool
  | [] => false
  | c :: rest => (c != 10) && (asSelectAt rest || ctasTail rest)

/-- ctasQueryPattern.MatchString: a case-insensitive CREATE prefix, then at
least one non-newline byte, then AS, whitespace, SELECT. -/
def ctasMatchString (q : List Nat) : Bool :=
  ciStartsWith createPat q && ctasTail (q.drop 6)

/-- queryType from conn.go lines 26-34. -/
inductive queryType
  | unknown
  | ddl
  | select
  | ctas
deriving DecidableEq

/-- getQueryType from conn.go lines 37-48: the DDL pattern is tried first,
then the CTAS pattern, then the SELECT pattern. -/
def getQueryType (query : List Nat) : queryType :=
  if ddlMatchString query then queryType.ddl
  else if ctasMatchString query then queryType.ctas
  else if selectMatchString query then queryType.select
  else queryType.unknown

/-- isDDLQuery from conn.go lines 51-53. -/
def isDDLQuery (query : List Nat) : Bool :=
  decide (getQueryType query = queryType.ddl)

/-- isSelectQuery from conn.go lines 56-58. -/
def isSelectQuery (query : List Nat) : Bool :=
  decide (getQueryType query = queryType.select)

/-- isCTASQuery from conn.go lines 61-63. -/
def isCTASQuery (query : List Nat) : Bool :=
  decide (getQueryType query = queryType.ctas)

/-! ### Result mode resolution (conn.go lines 97-109, 265-274, 336-348)

Modelled from the spec in part: the ResultMode type, its three constants and
the per-call context getters (getResultMode and friends) live in repository
files that are not under src/.  Per the spec, Result Mode is "an enumerated
value {API, Direct-Download, Compressed-Download}" carried by a Go int and
"scoped per call; resolved by precedence: explicit per-call override >
connection default; invalid values are a hard error".  We model the carrier
as Nat with the three constants below, and the per-call override as an
Option value (none when the context carries no override). -/

/-- Modelled from the spec: ResultMode, a Go int-backed enumeration. -/
abbrev ResultMode := Nat

/-- Modelled from the spec: the API result mode constant. -/
def ResultModeAPI : ResultMode := 0

/-- Modelled from the spec: the Direct-Download result mode constant. -/
def ResultModeDL : ResultMode := 1

/-- Modelled from the spec: the Compressed-Download (GZIP DL) result mode constant. -/
def ResultModeGzipDL : ResultMode := 2

/-- Modelled from the spec: the configuration error returned for an invalid
per-call result mode. -/
def ErrInvalidResultMode : String := "invalid result mode"

/-- isValidResultMode from conn.go lines 341-348: membership in the closed
enum of the three modes. -/
def isValidResultMode (mode : ResultMode) : Bool :=
  mode == ResultModeAPI || mode == ResultModeDL || mode == ResultModeGzipDL

/-- isCreatingCTASTable from conn.go lines 336-338. -/
def isCreatingCTASTable (isSelect : Bool) (resultMode : ResultMode) : Bool :=
  isSelect && (resultMode == ResultModeGzipDL)

/-- Mode-resolution fragment of conn.runQuery, conn.go lines 97-109: the
connection default, then a per-call override validated by isValidResultMode
(returning ErrInvalidResultMode when invalid), then the forced fallback to
API for a query that is not a SELECT. -/
def runQueryResolveMode (defMode : ResultMode) (ctxMode : Option ResultMode)
    (query : List Nat) : Except String ResultMode :=
  let isSelect := isSelectQuery query
  match ctxMode with
  | some rmode =>
    if isValidResultMode rmode then
      Except.ok (if isSelect then rmode else ResultModeAPI)
    else
      Except.error ErrInvalidResultMode
  | none => Except.ok (if isSelect then defMode else ResultModeAPI)

/-- Mode-resolution fragment of conn.prepareContext, conn.go lines 265-274:
the connection default, then a per-call override applied with no validation,
then the forced fallback to API for a query that is not a SELECT. -/
def prepareContextResolveMode (defMode : ResultMode) (ctxMode : Option ResultMode)
    (query : List Nat) : ResultMode :=
  let isSelect := isSelectQuery query
  let resultMode :=
    match ctxMode with
    | some rmode => rmode
    | none => defMode
  if isSelect then resultMode else ResultModeAPI

/-! ### Query execution polling (conn.go lines 211-243)

conn.waitOnQuery loops: one GetQueryExecution status call per iteration; a
call error is returned as is; a Cancelled state returns the cancellation
error, a Failed state returns the remote StateChangeReason as the error, a
Succeeded state returns nil; on Queued or Running the loop selects between
the caller's cancellation signal (then one StopQueryExecution request is
issued, its own outcome discarded, and the caller's cancellation error is
returned) and the poll-interval timer (then the loop continues).

The remote status oracle is a list with one entry per iteration: the result
of that iteration's status call paired with whether the caller's
deadline/cancellation signal is observed at that iteration's select.  The
trace records the outcome, the number of status polls performed and the
number of stop requests issued.  Real time (the poll-interval sleep) is not
modelled; the pending outcome stands for an oracle that ran out while the
loop would keep polling. -/

/-- Query execution states of the remote engine. -/
inductive QState
  | queued
  | running
  | succeeded
  | failed
  | cancelled
deriving DecidableEq

/-- One GetQueryExecution response: the state and the StateChangeReason. -/
structure StatusResp where
  state : QState
  stateChangeReason : String
deriving DecidableEq

/-- Outcome of conn.waitOnQuery.  ctxCancelled is the caller's cancellation
error (ctx.Err()); cancelled is the remote Cancelled state (context.Canceled
in the source). -/
inductive WaitOutcome
  | success
  | apiError (e : String)
  | failed (reason : String)
  | cancelled
  | ctxCancelled
  | pending
deriving DecidableEq

/-- Trace of one conn.waitOnQuery run: outcome, status polls performed, stop
requests issued. -/
structure WaitTrace where
  outcome : WaitOutcome
  polls : Nat
  stops : Nat
deriving DecidableEq

/-- conn.waitOnQuery, conn.go lines 211-243, over a status oracle listing one
(status-call result, cancellation-observed) pair per iteration. -/
def waitOnQuery : List (Except String StatusResp × Bool) → WaitTrace
  | [] => ⟨WaitOutcome.pending, 0, 0⟩
  | (resp, ctxDone) :: rest =>
    match resp with
    | Except.error e => ⟨WaitOutcome.apiError e, 1, 0⟩
    | Except.ok st =>
      match st.state with
      | QState.cancelled => ⟨WaitOutcome.cancelled, 1, 0⟩
      | QState.failed => ⟨WaitOutcome.failed st.stateChangeReason, 1, 0⟩
      | QState.succeeded => ⟨WaitOutcome.success, 1, 0⟩
      | QState.queued =>
        if ctxDone then ⟨WaitOutcome.ctxCancelled, 1, 1⟩
        else
          let t := waitOnQuery rest
          ⟨t.outcome, t.polls + 1, t.stops⟩
      | QState.running =>
        if ctxDone then ⟨WaitOutcome.ctxCancelled, 1, 1⟩
        else
          let t := waitOnQuery rest
          ⟨t.outcome, t.polls + 1, t.stops⟩

/-- An oracle entry after which the loop keeps going: a successful status call
reporting a non-terminal state, with no cancellation observed. -/
def stepContinues : Except String StatusResp × Bool → Bool
  | (Except.ok st, ctxDone) =>
    !ctxDone && (st.state == QState.queued || st.state == QState.running)
  | (Except.error _, _) => false

/-! ### Gzip record decoding (rows_gzip.go lines 248-280)

getRecordsFromGzip scans the decompressed object line by line with a
bufio.Scanner (lines split at newline, a trailing carriage return dropped, a
final line without newline still emitted, and the empty input emitting no
line).  Each line is decoded byte-wise with utf8.DecodeRune: a U+0001 rune
closes the current field, any other rune is appended to it via Go string
concatenation (so the rune's UTF-8 encoding is appended, which for
utf8.RuneError is the three bytes EF BF BD); the loop breaks, emitting the
current field, as soon as the decoded width reaches the rest of the line --
in particular an empty line decodes one rune (RuneError, width 0) before
breaking.  utf8.DecodeRune and utf8.EncodeRune are Go standard library
functions, embedded here by their documented behavior. -/

/-- Lower bound of the second byte of a multi-byte UTF-8 sequence, by first
byte (Go utf8 acceptRanges). -/
def utf8B1Lo (b0 : Nat) : Nat :=
  if b0 = 0xE0 then 0xA0 else if b0 = 0xF0 then 0x90 else 0x80

/-- Upper bound of the second byte of a multi-byte UTF-8 sequence, by first
byte (Go utf8 acceptRanges). -/
def utf8B1Hi (b0 : Nat) : Nat :=
  if b0 = 0xED then 0x9F else if b0 = 0xF4 then 0x8F else 0xBF

/-- Go utf8.DecodeRune: the first rune of the byte string and the number of
bytes it occupies.  The empty string gives (RuneError, 0); an invalid or
truncated encoding gives (RuneError, 1); otherwise the decoded rune and its
width 1 to 4. -/
def utf8DecodeRune : List Nat → Nat × Nat
  | [] => (0xFFFD, 0)
  | b0 :: rest =>
    if b0 < 0x80 then (b0, 1)
    else if b0 < 0xC2 then (0xFFFD, 1)
    else if b0 < 0xE0 then
      match rest with
      | b1 :: _ =>
        if 0x80 ≤ b1 ∧ b1 ≤ 0xBF then ((b0 % 0x20) * 0x40 + b1 % 0x40, 2)
        else (0xFFFD, 1)
      | [] => (0xFFFD, 1)
    else if b0 < 0xF0 then
      match rest with
      | b1 :: b2 :: _ =>
        if (utf8B1Lo b0 ≤ b1 ∧ b1 ≤ utf8B1Hi b0) ∧ (0x80 ≤ b2 ∧ b2 ≤ 0xBF) then
          ((b0 % 0x10) * 0x1000 + (b1 % 0x40) * 0x40 + b2 % 0x40, 3)
        else (0xFFFD, 1)
      | _ => (0xFFFD, 1)
    else if b0 < 0xF5 then
      match rest with
      | b1 :: b2 :: b3 :: _ =>
        if (utf8B1Lo b0 ≤ b1 ∧ b1 ≤ utf8B1Hi b0) ∧ (0x80 ≤ b2 ∧ b2 ≤ 0xBF) ∧
            (0x80 ≤ b3 ∧ b3 ≤ 0xBF) then
          ((b0 % 8) * 0x40000 + (b1 % 0x40) * 0x1000 + (b2 % 0x40) * 0x40 + b3 % 0x40, 4)
        else (0xFFFD, 1)
      | _ => (0xFFFD, 1)
    else (0xFFFD, 1)

/-- UTF-8 encoding of a rune, as Go appends it to a string. -/
def utf8EncodeRune (r : Nat) : List Nat :=
  if r < 0x80 then [r]
  else if r < 0x800 then [0xC0 + r / 0x40, 0x80 + r % 0x40]
  else if r < 0x10000 then [0xE0 + r / 0x1000, 0x80 + (r / 0x40) % 0x40, 0x80 + r % 0x40]
  else [0xF0 + r / 0x40000, 0x80 + (r / 0x1000) % 0x40, 0x80 + (r / 0x40) % 0x40, 0x80 + r % 0x40]

/-- Inner decoding loop of getRecordsFromGzip over one line (rows_gzip.go
lines 258-274): decode a rune; on U+0001 close the field, otherwise append
the rune's encoding to it; emit the field and stop once the width reaches
the remaining length, else drop the decoded bytes and continue. -/
def decodeRecord (b field : List Nat) (record : List (List Nat)) : List (List Nat) :=
  if h : b.length ≤ (utf8DecodeRune b).2 then
    if (utf8DecodeRune b).1 = 1 then (record ++ [field]) ++ [[]]
    else record ++ [field ++ utf8EncodeRune (utf8DecodeRune b).1]
  else
    if (utf8DecodeRune b).1 = 1 then
      decodeRecord (b.drop (utf8DecodeRune b).2) [] (record ++ [field])
    else
      decodeRecord (b.drop (utf8DecodeRune b).2) (field ++ utf8EncodeRune (utf8DecodeRune b).1) record
termination_by b.length
decreasing_by
  all_goals
    simp only [List.length_drop]
    rcases b with _ | ⟨b0, bs⟩
    · simp [utf8DecodeRune] at h
    · have hw : 1 ≤ (utf8DecodeRune (b0 :: bs)).2 := by
        unfold utf8DecodeRune
        repeat' split
        all_goals simp_all
      omega

/-- dropCR of bufio.ScanLines: a trailing carriage return is removed from the
line. -/
def dropCRByte (l : List Nat) : List Nat :=
  if l.getLast? = some 13 then l.dropLast else l

/-- Line splitting of a bufio.Scanner with ScanLines: tokens are the pieces
between newlines, each with a trailing carriage return dropped; a final piece
without newline is still a token; the empty input has no token. -/
def splitLines (s : List Nat) : List (List Nat) :=
  if hs : s = [] then []
  else
    let line := s.takeWhile (fun c => !(c == 10))
    if line.length = s.length then [dropCRByte line]
    else dropCRByte line :: splitLines (s.drop (line.length + 1))
termination_by s.length
decreasing_by
  simp only [List.length_drop]
  have h1 : 0 < s.length := List.length_pos.mpr hs
  omega

/-- getRecordsFromGzip, rows_gzip.go lines 248-280, over the decompressed
bytes: each scanned line decoded by the inner loop. -/
def getRecordsFromGzip (s : List Nat) : List (List (List Nat)) :=
  (splitLines s).map (fun line => decodeRecord line [] [])

/-- getObjectKeysForGzip, rows_gzip.go lines 228-246: the manifest lines, each
stripped of its first start bytes when start is positive and the line is
longer than start. -/
def getObjectKeysForGzip (m : List Nat) (start : Nat) : List (List Nat) :=
  (splitLines m).map (fun k => if 0 < start ∧ start < k.length then k.drop start else k)

/-! ### Compressed download (rows_gzip.go lines 86-162)

rowsGzipDL.downloadCompressedData first slices the output location: the
trailing-slash test location[len(location)-1:] requires a nonempty location,
and the bucket name location[5:] (dropping the five bytes of the scheme,
whose content is never checked) requires at least five bytes after the
optional trailing-slash removal; a shorter input makes a Go slice expression
panic, modelled as the none of an Option.  It then fetches the manifest
object tables/<queryID>-manifest.csv, lists the object keys, and for each
key in listing order fetches the object, decompresses it (gzip.NewReader and
io.ReadAll, external collaborators abstracted as the gunzip parameter) and
appends the decoded records to the downloadedRows buffer, which is created
at the first successful decode (nil before). -/

/-- Location slicing prelude of downloadCompressedData, rows_gzip.go lines
96-101: none when a Go slice bound is out of range, otherwise the bucket
name and the location after trailing-slash removal. -/
def locationPrelude (location : List Nat) : Option (List Nat × List Nat) :=
  if location.length = 0 then none
  else
    let location' := if location.getLast? = some 47 then location.dropLast else location
    if location'.length < 5 then none
    else some (location'.drop 5, location')

/-- Manifest object key tables/<queryID>-manifest.csv, rows_gzip.go line 109. -/
def manifestKeyFor (queryID : List Nat) : List Nat :=
  [116, 97, 98, 108, 101, 115, 47] ++ queryID ++
    [45, 109, 97, 110, 105, 102, 101, 115, 116, 46, 99, 115, 118]

/-- Per-object body of the download loop, rows_gzip.go lines 129-152: fetch
the object from the store, decompress it, decode its records. -/
def decodeObject (store : List Nat → List Nat → Except String (List Nat))
    (gunzip : List Nat → Except String (List Nat))
    (bucketName key : List Nat) : Except String (List (List (List Nat))) :=
  match store bucketName key with
  | Except.error e => Except.error e
  | Except.ok data =>
    match gunzip data with
    | Except.error e => Except.error e
    | Except.ok bytes => Except.ok (getRecordsFromGzip bytes)

/-- Download loop of downloadCompressedData, rows_gzip.go lines 128-159: the
object keys in manifest listing order, the buffer created at the first
successful decode and extended by each object's records. -/
def gzipObjectLoop (store : List Nat → List Nat → Except String (List Nat))
    (gunzip : List Nat → Except String (List Nat)) (bucketName : List Nat) :
    List (List Nat) → Option (List (List (List Nat))) →
      Except String (Option (List (List (List Nat))))
  | [], acc => Except.ok acc
  | key :: keys, acc =>
    match decodeObject store gunzip bucketName key with
    | Except.error e => Except.error e
    | Except.ok datas =>
      match acc with
      | none => gzipObjectLoop store gunzip bucketName keys (some datas)
      | some rows => gzipObjectLoop store gunzip bucketName keys (some (rows ++ datas))

/-- rowsGzipDL.downloadCompressedData, rows_gzip.go lines 95-162: the slicing
prelude (none on a slice panic), the manifest fetch, the key listing with
start = length of the stripped location + 1, and the download loop. -/
def downloadCompressedData (store : List Nat → List Nat → Except String (List Nat))
    (gunzip : List Nat → Except String (List Nat)) (queryID location : List Nat) :
    Option (Except String (Option (List (List (List Nat))))) :=
  match locationPrelude location with
  | none => none
  | some (bucketName, location') =>
    some (match store bucketName (manifestKeyFor queryID) with
      | Except.error e => Except.error e
      | Except.ok data =>
        gzipObjectLoop store gunzip bucketName
          (getObjectKeysForGzip data (location'.length + 1)) none)

/-! ### Compressed-download cursor (rows_gzip.go lines 184-196)

rowsGzipDL.nextCTAS serves rows from the downloadedRows buffer: at or past
the end it returns io.EOF and changes nothing; otherwise it converts the row
at the cursor (convertRowFromTableInfo, a repository function not under src/,
abstracted as the conv parameter since only its success or failure reaches
this code) and on success advances the cursor by one; a conversion error
leaves the cursor in place. -/

/-- downloadedRows, the in-memory row buffer with its cursor offset. -/
structure downloadedRows where
  data : List (List (List Nat))
  cursor : Nat
deriving DecidableEq

/-- Result of one Next call: a served row, end of data (io.EOF), or a
conversion error. -/
inductive NextResult
  | ok
  | eof
  | err (e : String)
deriving DecidableEq

/-- rowsGzipDL.nextCTAS, rows_gzip.go lines 184-196. -/
def nextCTAS (conv : List (List Nat) → Except String Unit) (r : downloadedRows) :
    NextResult × downloadedRows :=
  if h : r.data.length ≤ r.cursor then (NextResult.eof, r)
  else
    match conv (r.data.get ⟨r.cursor, by omega⟩) with
    | Except.error e => (NextResult.err e, r)
    | Except.ok _ => (NextResult.ok, { r with cursor := r.cursor + 1 })

/-! ### Compressed-download initialization (rows_gzip.go lines 52-84)

rowsGzipDL.init starts the download and the table-metadata fetch
concurrently, then receives exactly two completion signals from the shared
error channel, aborting with the context error if the deadline fires first
at either receive, or with the first error received; only after both
signals report success is the AfterDownload cleanup (the DROP TABLE closure,
present only when a CTAS table was created) invoked, and its own result is
returned.  The model takes the two channel arrivals in arrival order (r0
then r1), whether the deadline is observed at each of the two receives, and
the cleanup as an Option of its result; the second component counts how
often the cleanup was invoked. -/

/-- rowsGzipDL.init, rows_gzip.go lines 52-84: the two-receive loop and the
conditional AfterDownload invocation, paired with the number of cleanup
invocations. -/
def rowsGzipInit (r0 r1 : Except String Unit) (done0 done1 : Bool)
    (afterDownload : Option (Except String Unit)) : Except String Unit × Nat :=
  if done0 then (Except.error "context deadline exceeded", 0)
  else
    match r0 with
    | Except.error e => (Except.error e, 0)
    | Except.ok _ =>
      if done1 then (Except.error "context deadline exceeded", 0)
      else
        match r1 with
        | Except.error e => (Except.error e, 0)
        | Except.ok _ =>
          match afterDownload with
          | none => (Except.ok (), 0)
          | some res => (res, 1)

/-! ## Theorems -/

/-- C5: getQueryType checks the DDL pattern before the CTAS pattern, and every
string matching the CTAS pattern (a case-insensitive CREATE prefix and then
AS whitespace SELECT) also matches the DDL pattern (whose alternatives
include CREATE), so getQueryType never returns the CTAS classification and
isCTASQuery is false for every string. -/
theorem ctas_classification_shadowed (q : List Nat) :
    (ctasMatchString q = true → ddlMatchString q = true) ∧
    getQueryType q ≠ queryType.ctas ∧ isCTASQuery q = false := by
  have himp : ctasMatchString q = true → ddlMatchString q = true := by
    intro hc
    have hcr : ciStartsWith createPat q = true := by
      simp only [ctasMatchString, Bool.and_eq_true] at hc
      exact hc.1
    simp [ddlMatchString, hcr]
  have hne : getQueryType q ≠ queryType.ctas := by
    unfold getQueryType
    by_cases hd : ddlMatchString q = true
    · simp [hd]
    · have hc : ¬ ctasMatchString q = true := fun hcc => hd (himp hcc)
      by_cases hs : selectMatchString q = true <;> simp [hd, hc, hs]
  exact ⟨himp, hne, by simp [isCTASQuery, hne]⟩

/-- Witness for C5 at the user-supplied CTAS text CREATE T AS SELECT 1: it
classifies as DDL, never as CTAS. -/
theorem ctas_classification_shadowed_witness :
    getQueryType [67, 82, 69, 65, 84, 69, 32, 84, 32, 65, 83, 32, 83, 69, 76, 69, 67, 84, 32, 49] ≠
      queryType.ctas ∧
    isCTASQuery [67, 82, 69, 65, 84, 69, 32, 84, 32, 65, 83, 32, 83, 69, 76, 69, 67, 84, 32, 49] =
      false :=
  (ctas_classification_shadowed
    [67, 82, 69, 65, 84, 69, 32, 84, 32, 65, 83, 32, 83, 69, 76, 69, 67, 84, 32, 49]).2

/-- C3: for a query that does not classify as SELECT, every effective result
mode the query path resolves is API -- on the runQuery path the connection
default and any valid per-call override are replaced by API (any resolved
mode is API), and the prepareContext path resolves API outright regardless
of the override. -/
theorem nonselect_forces_api (defMode : ResultMode) (ctxMode : Option ResultMode) (q : List Nat)
    (h : isSelectQuery q = false) :
    (∀ m, isValidResultMode m = true →
      runQueryResolveMode defMode (some m) q = Except.ok ResultModeAPI) ∧
    runQueryResolveMode defMode none q = Except.ok ResultModeAPI ∧
    (∀ m, runQueryResolveMode defMode ctxMode q = Except.ok m → m = ResultModeAPI) ∧
    prepareContextResolveMode defMode ctxMode q = ResultModeAPI := by
  refine ⟨?_, ?_, ?_, ?_⟩
  · intro m hm
    simp [runQueryResolveMode, h, hm]
  · simp [runQueryResolveMode, h]
  · intro m hm
    rcases ctxMode with _ | r
    · simp [runQueryResolveMode, h, ResultModeAPI] at hm ⊢
      exact hm.symm
    · by_cases hv : isValidResultMode r = true <;>
        simp [runQueryResolveMode, h, hv, ResultModeAPI] at hm ⊢
      exact hm.symm
  · rcases ctxMode with _ | r <;> simp [prepareContextResolveMode, h]

/-- Witness for C3 at the non-SELECT query DROP TABLE t with connection
default DL and per-call override GzipDL: both paths resolve API. -/
theorem nonselect_forces_api_witness :
    runQueryResolveMode ResultModeDL (some ResultModeGzipDL)
      [68, 82, 79, 80, 32, 84, 65, 66, 76, 69, 32, 116] = Except.ok ResultModeAPI ∧
    prepareContextResolveMode ResultModeDL (some ResultModeGzipDL)
      [68, 82, 79, 80, 32, 84, 65, 66, 76, 69, 32, 116] = ResultModeAPI := by
  have h := nonselect_forces_api ResultModeDL (some ResultModeGzipDL)
    [68, 82, 79, 80, 32, 84, 65, 66, 76, 69, 32, 116] (by decide)
  exact ⟨h.1 ResultModeGzipDL (by decide), h.2.2.2⟩

/-- Counterexample to C4: the mode 7 is outside the closed enum, yet the
prepareContext path resolves it as the effective mode of the SELECT query
SELECT 1 instead of returning the invalid-result-mode error -- that path
performs no validation at all. -/
theorem prepare_override_unvalidated_cex :
    isValidResultMode 7 = false ∧
    prepareContextResolveMode ResultModeAPI (some 7) [83, 69, 76, 69, 67, 84, 32, 49] = 7 := by
  decide

/-- C4 as amended: only the runQuery path validates a per-call override
against the closed enum, returning ErrInvalidResultMode for a value outside
it; the prepareContext path applies the override unvalidated (an invalid
override becomes the effective mode of a SELECT query there, and is forced
to API for a non-SELECT). -/
theorem override_validation_per_path (defMode m : ResultMode) (q : List Nat)
    (h : isValidResultMode m = false) :
    runQueryResolveMode defMode (some m) q = Except.error ErrInvalidResultMode ∧
    prepareContextResolveMode defMode (some m) q =
      (if isSelectQuery q then m else ResultModeAPI) := by
  constructor
  · simp [runQueryResolveMode, h]
  · simp [prepareContextResolveMode]

/-- Witness for C4 as amended, at the invalid override 7 and the query
SELECT 1. -/
theorem override_validation_per_path_witness :
    runQueryResolveMode ResultModeAPI (some 7) [83, 69, 76, 69, 67, 84, 32, 49] =
      Except.error ErrInvalidResultMode ∧
    prepareContextResolveMode ResultModeAPI (some 7) [83, 69, 76, 69, 67, 84, 32, 49] =
      (if isSelectQuery [83, 69, 76, 69, 67, 84, 32, 49] then 7 else ResultModeAPI) :=
  override_validation_per_path ResultModeAPI 7 [83, 69, 76, 69, 67, 84, 32, 49] (by decide)

/-- Helper: iterations whose status call succeeds with a non-terminal state
and no observed cancellation only add one poll each to the trace of what
follows. -/
theorem waitOnQuery_skip (pre rest : List (Except String StatusResp × Bool))
    (h : ∀ p ∈ pre, stepContinues p = true) :
    waitOnQuery (pre ++ rest) =
      ⟨(waitOnQuery rest).outcome, (waitOnQuery rest).polls + pre.length,
        (waitOnQuery rest).stops⟩ := by
  induction pre with
  | nil => simp
  | cons p ps ih =>
    have hp := h p (List.mem_cons_self p ps)
    have hps : ∀ x ∈ ps, stepContinues x = true := fun x hx => h x (List.mem_cons_of_mem p hx)
    obtain ⟨resp, d⟩ := p
    cases resp with
    | error e => simp [stepContinues] at hp
    | ok st =>
      simp only [stepContinues, Bool.and_eq_true, Bool.not_eq_true',
        Bool.or_eq_true, beq_iff_eq] at hp
      obtain ⟨hd, hst⟩ := hp
      subst hd
      rcases hst with h1 | h1 <;>
        · simp [List.cons_append, waitOnQuery, h1, ih hps]
          omega

/-- C6: when the caller's deadline/cancellation is observed while the state
is non-terminal (Queued or Running), after any number of continuing polls,
waitOnQuery issues exactly one stop request and returns the caller's
cancellation error; the stop request's own outcome does not appear in the
trace at all, matching the source discarding the StopQueryExecution result. -/
theorem waitOnQuery_cancel_midpoll (pre rest : List (Except String StatusResp × Bool))
    (st : StatusResp) (hpre : ∀ p ∈ pre, stepContinues p = true)
    (hst : st.state = QState.queued ∨ st.state = QState.running) :
    waitOnQuery (pre ++ (Except.ok st, true) :: rest) =
      ⟨WaitOutcome.ctxCancelled, pre.length + 1, 1⟩ := by
  rw [waitOnQuery_skip pre _ hpre]
  rcases hst with h1 | h1 <;>
    · simp [waitOnQuery, h1]
      omega

/-- Witness for C6: one continuing Queued poll, then cancellation observed
while Running -- one stop request, the caller's cancellation error. -/
theorem waitOnQuery_cancel_midpoll_witness :
    waitOnQuery [(Except.ok ⟨QState.queued, ""⟩, false), (Except.ok ⟨QState.running, ""⟩, true)] =
      ⟨WaitOutcome.ctxCancelled, 2, 1⟩ :=
  waitOnQuery_cancel_midpoll [(Except.ok ⟨QState.queued, ""⟩, false)] []
    ⟨QState.running, ""⟩ (by decide) (Or.inr rfl)

/-- C7: for the status sequence Queued, Running, Running, Succeeded the await
loop performs exactly 4 polls, no stop request, and returns success; after
any run of continuing polls a Failed state returns the remote
StateChangeReason as the error and a Cancelled state returns the
cancellation outcome, in both cases with no stop request. -/
theorem waitOnQuery_terminal_outcomes :
    waitOnQuery [(Except.ok ⟨QState.queued, ""⟩, false), (Except.ok ⟨QState.running, ""⟩, false),
        (Except.ok ⟨QState.running, ""⟩, false), (Except.ok ⟨QState.succeeded, ""⟩, false)] =
      ⟨WaitOutcome.success, 4, 0⟩ ∧
    (∀ pre rest reason d, (∀ p ∈ pre, stepContinues p = true) →
      waitOnQuery (pre ++ (Except.ok ⟨QState.failed, reason⟩, d) :: rest) =
        ⟨WaitOutcome.failed reason, pre.length + 1, 0⟩) ∧
    (∀ pre rest reason d, (∀ p ∈ pre, stepContinues p = true) →
      waitOnQuery (pre ++ (Except.ok ⟨QState.cancelled, reason⟩, d) :: rest) =
        ⟨WaitOutcome.cancelled, pre.length + 1, 0⟩) := by
  refine ⟨by decide, ?_, ?_⟩ <;>
    · intro pre rest reason d h
      rw [waitOnQuery_skip pre _ h]
      simp [waitOnQuery]
      omega

/-- Counterexample to C1: with a cleanup callback present (a CTAS table was
created), a download error makes init return that error with the cleanup
invoked zero times, not once as claimed. -/
theorem rowsGzipInit_cleanup_skipped_cex :
    rowsGzipInit (Except.error "download failed") (Except.ok ()) false false
        (some (Except.ok ())) = (Except.error "download failed", 0) ∧ (0 : Nat) ≠ 1 := by
  exact ⟨rfl, by decide⟩

/-- C1 as amended: the cleanup dropping the CTAS table is invoked exactly
once if and only if it is present and both concurrent operations (download
and table-metadata fetch) deliver success before the deadline; when either
delivers an error or the deadline fires first, init returns that error
without invoking the cleanup; it is never invoked when absent, never invoked
more than once, and when invoked its own result is what init returns. -/
theorem rowsGzipInit_cleanup_iff (r0 r1 : Except String Unit) (d0 d1 : Bool)
    (ad : Except String Unit) :
    ((rowsGzipInit r0 r1 d0 d1 (some ad)).2 = 1 ↔
      d0 = false ∧ d1 = false ∧ r0 = Except.ok () ∧ r1 = Except.ok ()) ∧
    (rowsGzipInit r0 r1 d0 d1 none).2 = 0 ∧
    ((rowsGzipInit r0 r1 d0 d1 (some ad)).2 = 1 →
      (rowsGzipInit r0 r1 d0 d1 (some ad)).1 = ad) ∧
    (rowsGzipInit r0 r1 d0 d1 (some ad)).2 ≤ 1 := by
  cases d0 <;> cases d1 <;> rcases r0 with e0 | u0 <;> rcases r1 with e1 | u1 <;>
    simp [rowsGzipInit]

/-- C9: the Compressed-Download cursor returns EndOfData exactly when the
cursor offset has reached the buffer length, and then leaves the state
(buffer and cursor) unchanged so every subsequent call returns EndOfData
again; no call changes the buffer; every call preserves the invariant that
the cursor never exceeds the buffer length; a successful call advances the
cursor by exactly one. -/
theorem nextCTAS_cursor_invariants (conv : List (List Nat) → Except String Unit)
    (r : downloadedRows) :
    ((nextCTAS conv r).1 = NextResult.eof ↔ r.data.length ≤ r.cursor) ∧
    ((nextCTAS conv r).1 = NextResult.eof → (nextCTAS conv r).2 = r ∧
      (nextCTAS conv (nextCTAS conv r).2).1 = NextResult.eof) ∧
    (nextCTAS conv r).2.data = r.data ∧
    (r.cursor ≤ r.data.length →
      (nextCTAS conv r).2.cursor ≤ (nextCTAS conv r).2.data.length) ∧
    ((nextCTAS conv r).1 = NextResult.ok → (nextCTAS conv r).2.cursor = r.cursor + 1) := by
  by_cases h : r.data.length ≤ r.cursor
  · simp [nextCTAS, h]
  · cases hc : conv (r.data.get ⟨r.cursor, by omega⟩) with
    | error e =>
      simp only [List.get_eq_getElem] at hc
      simp [nextCTAS, h, hc]
    | ok u =>
      simp only [List.get_eq_getElem] at hc
      simp [nextCTAS, h, hc]
      omega

/-- C10 as amended: the location slicing prelude of downloadCompressedData is
undefined (a Go slice panic) exactly for the empty location and for a
location with fewer than five bytes left after the optional trailing-slash
removal; in particular it is undefined on the empty string.  The five
dropped bytes are never compared against the scheme s3://. -/
theorem locationPrelude_domain (loc : List Nat) :
    (locationPrelude loc = none ↔
      loc = [] ∨ (if loc.getLast? = some 47 then loc.length - 1 else loc.length) < 5) ∧
    locationPrelude [] = none := by
  refine ⟨?_, rfl⟩
  unfold locationPrelude
  by_cases h0 : loc.length = 0
  · simp [h0, List.length_eq_zero.mp h0]
  · have hne : loc ≠ [] := fun hh => h0 (by simp [hh])
    by_cases hl : loc.getLast? = some 47 <;>
      simp [h0, hl, hne, List.length_dropLast]

/-- Counterexample to C10: the five-byte location abcde has no trailing
slash, is shorter than the claimed minimum of six and does not carry the
s3:// scheme, yet the slicing prelude is defined on it (the bucket name
comes out empty), so the claimed precondition is not necessary for
definedness. -/
theorem locationPrelude_defined_below_claimed_bound_cex :
    locationPrelude [97, 98, 99, 100, 101] = some ([], [97, 98, 99, 100, 101]) ∧
    List.length [97, 98, 99, 100, 101] = 5 ∧
    List.take 5 [97, 98, 99, 100, 101] ≠ [115, 51, 58, 47, 47] := by
  decide

/-- Helper: the record decoder turns the single newline byte into one row
holding one field with the UTF-8 encoding of the replacement character. -/
theorem gzipRecords_newline_eval : getRecordsFromGzip [10] = [[[239, 191, 189]]] := by
  rw [getRecordsFromGzip, show splitLines [10] = [[]] from by simp [splitLines, dropCRByte]]
  simp only [List.map_cons, List.map_nil]
  simp [decodeRecord, utf8DecodeRune, utf8EncodeRune]

/-- Counterexample to C2: an empty input line does not decode to a row with
one empty-string field -- it decodes to a row with one field holding the
three UTF-8 bytes of the replacement character U+FFFD, because the decoder
decodes one rune from the empty line (RuneError at width zero) and appends
its encoding to the field before emitting it. -/
theorem gzip_empty_line_not_empty_field_cex :
    getRecordsFromGzip [10] = [[[239, 191, 189]]] ∧ getRecordsFromGzip [10] ≠ [[[]]] := by
  refine ⟨gzipRecords_newline_eval, ?_⟩
  rw [gzipRecords_newline_eval]
  decide

/-- C2 as amended: the line a U+0001 b U+0001 c with terminating newline
decodes to exactly one row with the three fields a, b, c; an empty line
decodes to one row whose single field is the three-byte UTF-8 encoding of
the replacement character U+FFFD, not the empty string; the wholly empty
input decodes to no rows at all. -/
theorem gzip_record_decoding_examples :
    getRecordsFromGzip [97, 1, 98, 1, 99, 10] = [[[97], [98], [99]]] ∧
    getRecordsFromGzip [10] = [[[239, 191, 189]]] ∧
    getRecordsFromGzip [] = [] := by
  refine ⟨?_, gzipRecords_newline_eval, ?_⟩
  · rw [getRecordsFromGzip, show splitLines [97, 1, 98, 1, 99, 10] = [[97, 1, 98, 1, 99]] from by
      simp [splitLines, dropCRByte]]
    simp only [List.map_cons, List.map_nil]
    simp [decodeRecord, utf8DecodeRune, utf8EncodeRune]
  · rw [getRecordsFromGzip, show splitLines [] = [] from by simp [splitLines]]
    simp

/-- Helper: when each listed object decodes successfully, the download loop
concatenates the per-object rows in listing order onto the buffer, creating
the buffer at the first object. -/
theorem gzipObjectLoop_append (store : List Nat → List Nat → Except String (List Nat))
    (gunzip : List Nat → Except String (List Nat)) (bucket : List Nat)
    (g : List Nat → List (List (List Nat))) (keys : List (List Nat))
    (h : ∀ k ∈ keys, decodeObject store gunzip bucket k = Except.ok (g k)) :
    (∀ acc, gzipObjectLoop store gunzip bucket keys (some acc) =
      Except.ok (some (acc ++ (keys.map g).flatten))) ∧
    (keys ≠ [] → gzipObjectLoop store gunzip bucket keys none =
      Except.ok (some (keys.map g).flatten)) := by
  induction keys with
  | nil => simp [gzipObjectLoop]
  | cons k ks ih =>
    have hk := h k (List.mem_cons_self k ks)
    have hks : ∀ x ∈ ks, decodeObject store gunzip bucket x = Except.ok (g x) :=
      fun x hx => h x (List.mem_cons_of_mem k hx)
    obtain ⟨ihsome, _⟩ := ih hks
    constructor
    · intro acc
      simp [gzipObjectLoop, hk, ihsome (acc ++ g k)]
    · intro _
      simp [gzipObjectLoop, hk, ihsome (g k)]

/-- Helper: the manifest content t1 newline t2 newline splits into the two
lines t1 and t2. -/
theorem splitLines_manifest_eval :
    splitLines [116, 49, 10, 116, 50, 10] = [[116, 49], [116, 50]] := by
  simp [splitLines, dropCRByte]

/-- C8: for a manifest listing the keys t1 and t2 whose objects decode to 3
and 2 rows, the downloaded buffer holds exactly the 5 rows of t1 followed by
those of t2 in file order; and in general, for any list of successfully
decoding keys, the buffer is the concatenation of the per-object rows in
manifest listing order, with no reordering across objects. -/
theorem downloadCompressedData_listing_order
    (store : List Nat → List Nat → Except String (List Nat))
    (gunzip : List Nat → Except String (List Nat)) (qid : List Nat)
    (r1 r2 : List (List (List Nat)))
    (hm : store [98] (manifestKeyFor qid) = Except.ok [116, 49, 10, 116, 50, 10])
    (h1 : decodeObject store gunzip [98] [116, 49] = Except.ok r1)
    (h2 : decodeObject store gunzip [98] [116, 50] = Except.ok r2)
    (hl1 : r1.length = 3) (hl2 : r2.length = 2) :
    downloadCompressedData store gunzip qid [115, 51, 58, 47, 47, 98] =
      some (Except.ok (some (r1 ++ r2))) ∧
    (r1 ++ r2).length = 5 ∧
    (∀ keys g, (∀ k ∈ keys, decodeObject store gunzip [98] k = Except.ok (g k)) →
      keys ≠ [] →
      gzipObjectLoop store gunzip [98] keys none = Except.ok (some (keys.map g).flatten)) := by
  refine ⟨?_, by simp [hl1, hl2], fun keys g hk hne =>
    (gzipObjectLoop_append store gunzip [98] g keys hk).2 hne⟩
  have hloc : locationPrelude [115, 51, 58, 47, 47, 98] =
      some ([98], [115, 51, 58, 47, 47, 98]) := by decide
  have hkeys : getObjectKeysForGzip [116, 49, 10, 116, 50, 10] 7 = [[116, 49], [116, 50]] := by
    rw [getObjectKeysForGzip, splitLines_manifest_eval]
    decide
  have hk : ∀ k ∈ [[116, 49], [116, 50]],
      decodeObject store gunzip [98] k = Except.ok (if k = [116, 49] then r1 else r2) := by
    intro k hmem
    simp only [List.mem_cons, List.not_mem_nil, or_false] at hmem
    rcases hmem with rfl | rfl
    · simpa using h1
    · simpa using h2
  have hloop := (gzipObjectLoop_append store gunzip [98]
    (fun k => if k = [116, 49] then r1 else r2) [[116, 49], [116, 50]] hk).2 (by simp)
  rw [downloadCompressedData, hloc]
  simp only []
  rw [hm]
  norm_num
  rw [hkeys, hloop]
  simp

/-- Helper: the object content a, b, c on three newline-terminated lines
decodes to three one-field rows. -/
theorem gzipRecords_abc_eval :
    getRecordsFromGzip [97, 10, 98, 10, 99, 10] = [[[97]], [[98]], [[99]]] := by
  rw [getRecordsFromGzip, show splitLines [97, 10, 98, 10, 99, 10] = [[97], [98], [99]] from by
    simp [splitLines, dropCRByte]]
  simp only [List.map_cons, List.map_nil]
  simp [decodeRecord, utf8DecodeRune, utf8EncodeRune]

/-- Helper: the object content d, e on two newline-terminated lines decodes
to two one-field rows. -/
theorem gzipRecords_de_eval :
    getRecordsFromGzip [100, 10, 101, 10] = [[[100]], [[101]]] := by
  rw [getRecordsFromGzip, show splitLines [100, 10, 101, 10] = [[100], [101]] from by
    simp [splitLines, dropCRByte]]
  simp only [List.map_cons, List.map_nil]
  simp [decodeRecord, utf8DecodeRune, utf8EncodeRune]

/-- Witness for C8 at a concrete store: manifest listing t1 and t2, t1
decoding to the rows a, b, c and t2 to d, e -- the buffer is those five rows
in that order. -/
theorem downloadCompressedData_listing_order_witness :
    downloadCompressedData
      (fun _bucket key =>
        if key = manifestKeyFor [113] then Except.ok [116, 49, 10, 116, 50, 10]
        else if key = [116, 49] then Except.ok [97, 10, 98, 10, 99, 10]
        else if key = [116, 50] then Except.ok [100, 10, 101, 10]
        else Except.error "no such key")
      (fun data => Except.ok data) [113] [115, 51, 58, 47, 47, 98] =
      some (Except.ok (some [[[97]], [[98]], [[99]], [[100]], [[101]]])) := by
  have h := downloadCompressedData_listing_order
    (fun _bucket key =>
      if key = manifestKeyFor [113] then Except.ok [116, 49, 10, 116, 50, 10]
      else if key = [116, 49] then Except.ok [97, 10, 98, 10, 99, 10]
      else if key = [116, 50] then Except.ok [100, 10, 101, 10]
      else Except.error "no such key")
    (fun data => Except.ok data) [113]
    [[[97]], [[98]], [[99]]] [[[100]], [[101]]]
    (by simp)
    (by simp [decodeObject, gzipRecords_abc_eval, manifestKeyFor])
    (by simp [decodeObject, gzipRecords_de_eval, manifestKeyFor])
    rfl rfl
  simpa using h.1

end GoAthena
